import Mathlib

/-!
Verification of the Machine-Guard ML core
(`ML Model and ML-Backend/machine_guard_core.py`, `monitor.py`,
`firebase_monitor.py`) against its natural-language specification.

The Python functions are shallowly embedded: numeric sensor values and
health scores are modelled as `ℚ`, the stateful `DeviceManager` becomes an
explicit record with pure step functions, and fallible operations are
modelled by explicit outcome parameters.
-/

namespace MachineGuard

/-- Risk categories, the three string constants `"NORMAL" | "WARNING" | "CRITICAL"`
used throughout the repository. -/
inductive Risk
  | NORMAL
  | WARNING
  | CRITICAL
deriving DecidableEq, Repr

/-- `classify_risk` of `monitor.py` (lines 23-29), repeated verbatim in
`firebase_monitor.py` (lines 76-85) and `real_time_input.py`:

    if health_score > 80:  return "NORMAL"
    elif 50 < health_score <= 80:  return "WARNING"
    else:  return "CRITICAL"
-/
def classify_risk (health_score : ℚ) : Risk :=
  if health_score > 80 then .NORMAL
  else if 50 < health_score ∧ health_score ≤ 80 then .WARNING
  else .CRITICAL

/-- The inline risk classification of `DeviceManager.handle_monitoring`
(`machine_guard_core.py` lines 260-262):

    risk = "NORMAL"
    if health < 30: risk = "CRITICAL"
    elif health < 60: risk = "WARNING"
-/
def monitoring_risk (health : ℚ) : Risk :=
  if health < 30 then .CRITICAL
  else if health < 60 then .WARNING
  else .NORMAL

/-- `DeviceManager.map_health` (`machine_guard_core.py` lines 197-200) and
`map_health` of `firebase_monitor.py` (lines 180-183):

    xp = [min_anom, 0.0, max_nice]
    fp = [0, 50, 100]
    return np.interp(raw_score, xp, fp)

This is `np.interp` specialised to the three anchor points
`(l, 0), (0, 50), (h, 100)` with `l = min_anom`, `h = max_nice`.  Following
numpy's scalar evaluation (`binary_search_with_guess`), the out-of-range
checks run in this order: first `x > xp[2]` returns `fp[2] = 100`, then
`x < xp[0]` returns `fp[0] = 0` — so with degenerate, decreasing anchors
the whole interval above `xp[2]` (including `(xp[2], xp[0])`) maps to 100.
Otherwise `xp[0] ≤ x ≤ xp[2]` and the enclosing segment `j` (the largest
index with `xp[j] ≤ x`, and `x < xp[j+1]` when `j < 2`) is selected and the
segment's linear formula `slope * (x - xp[j]) + fp[j]` is evaluated
(`j = 2` returns `fp[2]`).  numpy's exact-hit shortcut (`x = xp[j]` returns
`fp[j]`) coincides with the linear formula over `ℚ`, where the reachable
branches never divide by zero, so it needs no separate branch here. -/
def map_health (l h x : ℚ) : ℚ :=
  if h < x then 100
  else if x < l then 0
  else if x < 0 then (50 - 0) / (0 - l) * (x - l) + 0
  else if x < h then (100 - 50) / (h - 0) * (x - 0) + 50
  else 100

lemma map_health_of_gt_h {l h x : ℚ} (hhx : h < x) : map_health l h x = 100 := by
  unfold map_health
  rw [if_pos hhx]

lemma map_health_of_lt_l {l h x : ℚ} (hx : x < l) (hxh : x ≤ h) :
    map_health l h x = 0 := by
  unfold map_health
  rw [if_neg (not_lt.2 hxh), if_pos hx]

lemma map_health_of_segB {l h x : ℚ} (hlx : l ≤ x) (hx0 : x < 0) (hxh : x ≤ h) :
    map_health l h x = (50 - 0) / (0 - l) * (x - l) + 0 := by
  unfold map_health
  rw [if_neg (not_lt.2 hxh), if_neg (not_lt.2 hlx), if_pos hx0]

lemma map_health_of_segC {l h x : ℚ} (hlx : l ≤ x) (h0x : 0 ≤ x) (hxh : x < h) :
    map_health l h x = (100 - 50) / (h - 0) * (x - 0) + 50 := by
  unfold map_health
  rw [if_neg (not_lt.2 hxh.le), if_neg (not_lt.2 hlx), if_neg (not_lt.2 h0x),
    if_pos hxh]

lemma map_health_of_top {l h x : ℚ} (hlx : l ≤ x) (h0x : 0 ≤ x) (hhx : h ≤ x)
    (hxh : x ≤ h) : map_health l h x = 100 := by
  unfold map_health
  rw [if_neg (not_lt.2 hxh), if_neg (not_lt.2 hlx), if_neg (not_lt.2 h0x),
    if_neg (not_lt.2 hhx)]

lemma segB_nonneg {l x : ℚ} (hlx : l ≤ x) (hx0 : x < 0) :
    0 ≤ (50 - 0) / (0 - l) * (x - l) + 0 := by
  have hl : l < 0 := lt_of_le_of_lt hlx hx0
  have ha : (0 : ℚ) ≤ (50 - 0) / (0 - l) := by
    apply div_nonneg <;> linarith
  have := mul_nonneg ha (sub_nonneg.2 hlx)
  linarith

lemma segB_lt {l x : ℚ} (hlx : l ≤ x) (hx0 : x < 0) :
    (50 - 0) / (0 - l) * (x - l) + 0 < 50 := by
  have hl : l < 0 := lt_of_le_of_lt hlx hx0
  have hpos : (0 : ℚ) < 0 - l := by linarith
  rw [div_mul_eq_mul_div, add_zero, div_lt_iff₀ hpos]
  linarith

lemma segC_ge {h x : ℚ} (h0x : 0 ≤ x) (hxh : x < h) :
    50 ≤ (100 - 50) / (h - 0) * (x - 0) + 50 := by
  have hh : (0 : ℚ) < h := lt_of_le_of_lt h0x hxh
  have ha : (0 : ℚ) ≤ (100 - 50) / (h - 0) := by
    apply div_nonneg <;> linarith
  have := mul_nonneg ha (by linarith : (0 : ℚ) ≤ x - 0)
  linarith

lemma segC_lt {h x : ℚ} (h0x : 0 ≤ x) (hxh : x < h) :
    (100 - 50) / (h - 0) * (x - 0) + 50 < 100 := by
  have hh : (0 : ℚ) < h - 0 := by
    have := lt_of_le_of_lt h0x hxh
    linarith
  have : (100 - 50) / (h - 0) * (x - 0) < 50 := by
    rw [div_mul_eq_mul_div, div_lt_iff₀ hh]
    linarith
  linarith

/-- The health mapping always produces a value in `[0, 100]`, for any anchors
(degenerate ones included). -/
lemma map_health_range (l h x : ℚ) :
    0 ≤ map_health l h x ∧ map_health l h x ≤ 100 := by
  unfold map_health
  split_ifs with h1 h2 h3 h4
  · norm_num
  · norm_num
  · have hlx : l ≤ x := not_lt.1 h2
    exact ⟨segB_nonneg hlx h3, le_of_lt (by linarith [segB_lt hlx h3])⟩
  · have h0x : (0 : ℚ) ≤ x := not_lt.1 h3
    exact ⟨by linarith [segC_ge h0x h4], le_of_lt (segC_lt h0x h4)⟩
  · norm_num

/-- The health mapping is monotone non-decreasing in the raw score, for any
anchors (degenerate ones included). -/
lemma map_health_mono (l h x y : ℚ) (hxy : x ≤ y) :
    map_health l h x ≤ map_health l h y := by
  rcases lt_or_le h y with hhy | hyh
  · rw [map_health_of_gt_h hhy]
    exact (map_health_range l h x).2
  · have hxh : x ≤ h := le_trans hxy hyh
    rcases lt_or_le x l with hxl | hlx
    · rw [map_health_of_lt_l hxl hxh]
      exact (map_health_range l h y).1
    · have hly : l ≤ y := le_trans hlx hxy
      rcases lt_or_le x 0 with hx0 | h0x
      · rw [map_health_of_segB hlx hx0 hxh]
        rcases lt_or_le y 0 with hy0 | h0y
        · rw [map_health_of_segB hly hy0 hyh]
          have hl : l < 0 := lt_of_le_of_lt hlx hx0
          have ha : (0 : ℚ) ≤ (50 - 0) / (0 - l) := by
            apply div_nonneg <;> linarith
          have := mul_le_mul_of_nonneg_left (sub_le_sub_right hxy l) ha
          linarith
        · have hb := segB_lt hlx hx0
          rcases lt_or_le y h with hyh2 | hhy2
          · rw [map_health_of_segC hly h0y hyh2]
            linarith [segC_ge h0y hyh2]
          · rw [map_health_of_top hly h0y hhy2 hyh]
            linarith
      · have h0y : (0 : ℚ) ≤ y := le_trans h0x hxy
        rcases lt_or_le x h with hxh2 | hhx
        · rw [map_health_of_segC hlx h0x hxh2]
          rcases lt_or_le y h with hyh2 | hhy2
          · rw [map_health_of_segC hly h0y hyh2]
            have hh : (0 : ℚ) < h := lt_of_le_of_lt h0x hxh2
            have ha : (0 : ℚ) ≤ (100 - 50) / (h - 0) := by
              apply div_nonneg <;> linarith
            have := mul_le_mul_of_nonneg_left
              (by linarith : x - 0 ≤ y - 0) ha
            linarith
          · rw [map_health_of_top hly h0y hhy2 hyh]
            linarith [segC_lt h0x hxh2]
        · rw [map_health_of_top hlx h0x hhx hxh,
            map_health_of_top hly h0y (le_trans hhx hxy) hyh]

/-- Device lifecycle states of `machine_guard_core.py`
(`"NEW" | "CALIBRATING" | "MONITORING"`). -/
inductive LifeState
  | NEW
  | CALIBRATING
  | MONITORING
deriving DecidableEq, Repr

/-- An inbound Firebase reading (`MachineGuardSystem.run`): the five numeric
sensor fields plus the optional `timestamp` string (`none` models an absent
or empty — falsy — timestamp, which the ingestion loop skips). -/
structure Reading where
  temperature : ℚ
  humidity : ℚ
  gas : ℚ
  vibration : ℚ
  power : ℚ
  timestamp : Option String
deriving DecidableEq, Repr

/-- The field-mapped reading built at the top of
`DeviceManager.process_reading` (lines 84-90): `power` is renamed to
`current`. -/
structure MappedReading where
  temperature : ℚ
  humidity : ℚ
  gas : ℚ
  vibration : ℚ
  current : ℚ
deriving DecidableEq, Repr

/-- The `mapped_reading` dictionary of `DeviceManager.process_reading`. -/
def mapReading (r : Reading) : MappedReading :=
  ⟨r.temperature, r.humidity, r.gas, r.vibration, r.power⟩

/-- The MQTT status payload published at the end of
`DeviceManager.handle_monitoring` (lines 320-330).  Only the fields the
claims reason about are kept (`health` unrounded, `risk`); `device_id`,
`primary_issue`, the per-sensor report and the wall-clock timestamp are
presentation data irrelevant to whether a payload is emitted. -/
structure MqttPayload where
  health : ℚ
  risk : Risk
deriving DecidableEq, Repr

/-- The per-device mutable state of a `DeviceManager` instance:
`self.state`, the training CSV contents (`buffer`),
`self.calibration_start_time`, `self.last_processed_ts`,
`self.health_history` (deque, maxlen 3), `self.last_risk` and whether
`self.model` is loaded. -/
structure Device where
  state : LifeState
  buffer : List MappedReading
  calStart : Option ℚ
  lastTs : Option String
  hist : List ℚ
  lastRisk : Risk
  modelLoaded : Bool
deriving DecidableEq, Repr

/-- `CALIBRATION_SAMPLES = 100` (`machine_guard_core.py` line 20). -/
def CALIBRATION_SAMPLES : ℕ := 100

/-- `MAX_CALIBRATION_TIME = 300` seconds (`machine_guard_core.py` line 21). -/
def MAX_CALIBRATION_TIME : ℚ := 300

/-- Appending to `self.health_history`, a `deque(maxlen=3)`: the oldest entry
is dropped from the left once the window holds three values. -/
def pushHealth (hist : List ℚ) (h : ℚ) : List ℚ :=
  let l := hist ++ [h]
  if l.length ≤ 3 then l else l.tail

/-- The MQTT alert-gate decision of `DeviceManager.handle_monitoring`
(lines 280-288), evaluated on the history AFTER appending the current
health and on `self.last_risk` BEFORE it is overwritten:

    is_persistent_crit = (len(self.health_history) == 3
                          and all(h < 50 for h in self.health_history))
    if risk == "CRITICAL" and is_persistent_crit: ...
    elif risk == "WARNING" and self.last_risk != "WARNING": ...
    elif risk == "NORMAL" and self.last_risk != "NORMAL": ...
-/
def should_publish (risk : Risk) (hist : List ℚ) (lastRisk : Risk) : Bool :=
  if risk = .CRITICAL ∧ hist.length = 3 ∧ ∀ x ∈ hist, x < 50 then true
  else if risk = .WARNING ∧ lastRisk ≠ .WARNING then true
  else if risk = .NORMAL ∧ lastRisk ≠ .NORMAL then true
  else false

/-- `DeviceManager.handle_monitoring` (lines 243-330), on the success path
(no exception).  The scoring pipeline
`scaler.transform → model.decision_function → map_health` is the external
black-box capability; it is abstracted as `health_of`.  Returns the updated
device, the `should_publish_mqtt` flag, and the list of payloads actually
handed to `mqtt_client.publish` — the source publishes unconditionally
(lines 292-330), so this list is a singleton whenever the model is loaded;
`should_publish_mqtt` is computed but never consulted. -/
def handle_monitoring (health_of : MappedReading → ℚ) (d : Device)
    (r : MappedReading) : Device × Bool × List MqttPayload :=
  if d.modelLoaded then
    let health := health_of r
    let risk := monitoring_risk health
    let hist := pushHealth d.hist health
    let notify := should_publish risk hist d.lastRisk
    ({ d with hist := hist, lastRisk := risk }, notify, [⟨health, risk⟩])
  else
    -- `if not self.model: return`
    (d, false, [])

/-- Models `(self.calibration_start_time or time.time())` in
`DeviceManager.handle_calibration` (line 126): in Python both `None` and
`0.0` are falsy, so either falls back to the current time. -/
def orElseNow (t : Option ℚ) (now : ℚ) : ℚ :=
  match t with
  | none => now
  | some v => if v = 0 then now else v

/-- `DeviceManager.handle_calibration` (lines 118-137): append the reading
to the training buffer, then train and move to `MONITORING` when
`count >= CALIBRATION_SAMPLES or elapsed > MAX_CALIBRATION_TIME`.  The
second component records the exact dataframe passed to `train_model`
(`none` when training was not triggered).  This models the path where
training and the subsequent artifact load succeed; `trainFailure` below
models the failure path. -/
def handle_calibration (now : ℚ) (d : Device) (m : MappedReading) :
    Device × Option (List MappedReading) :=
  let buffer := d.buffer ++ [m]
  let elapsed := now - orElseNow d.calStart now
  if buffer.length ≥ CALIBRATION_SAMPLES ∨ elapsed > MAX_CALIBRATION_TIME then
    ({ d with buffer := buffer, state := .MONITORING, modelLoaded := true },
      some buffer)
  else
    ({ d with buffer := buffer }, none)

/-- `DeviceManager.process_reading` (lines 82-100): map the fields, then
route by lifecycle state.  In `NEW`, `start_calibration` resets the training
file, records the start time and saves state `CALIBRATING`, after which the
reading is appended (lines 92-94). -/
def process_reading (health_of : MappedReading → ℚ) (now : ℚ) (d : Device)
    (r : Reading) : Device × Option (List MappedReading) × List MqttPayload :=
  let m := mapReading r
  match d.state with
  | .NEW =>
      ({ d with state := .CALIBRATING, buffer := [m], calStart := some now },
        none, [])
  | .CALIBRATING =>
      let res := handle_calibration now d m
      (res.1, res.2, [])
  | .MONITORING =>
      let res := handle_monitoring health_of d m
      (res.1, none, res.2.2)

/-- The per-reading ingestion step of `MachineGuardSystem.run`
(lines 384-403): a reading without a (truthy) timestamp is skipped, a
reading whose timestamp equals `last_processed_ts` is skipped, otherwise
`last_processed_ts` is updated and the reading is processed. -/
def ingest (health_of : MappedReading → ℚ) (now : ℚ) (d : Device)
    (r : Reading) : Device × Option (List MappedReading) × List MqttPayload :=
  match r.timestamp with
  | none => (d, none, [])
  | some ts =>
      if d.lastTs = some ts then (d, none, [])
      else process_reading health_of now { d with lastTs := some ts } r

/-- Folding `handle_monitoring` over a list of health values (each reading
scored to the given health), collecting the `should_publish_mqtt` flags. -/
def gateRun (d : Device) : List ℚ → List Bool
  | [] => []
  | h :: t =>
      let res := handle_monitoring (fun _ => h) d ⟨0, 0, 0, 0, 0⟩
      res.2.1 :: gateRun res.1 t

/-- A device that has just entered `MONITORING` with artifacts loaded and no
alert history. -/
def freshMonitoring : Device :=
  { state := .MONITORING, buffer := [], calStart := none, lastTs := none,
    hist := [], lastRisk := .NORMAL, modelLoaded := true }

/-- C1 counterexample: at health `50` (and likewise anywhere in `[30, 60)` or
`[60, 80]`) the classification actually applied on the
`machine_guard_core.py` monitoring path (`handle_monitoring`, thresholds
`30`/`60`) disagrees with `classify_risk` (thresholds `50`/`80`), so the
`50`/`80` classification is not the one applied to every monitoring-path
reading. -/
theorem classify_vs_monitoring_path_at_50 :
    classify_risk 50 = Risk.CRITICAL ∧ monitoring_risk 50 = Risk.WARNING ∧
    monitoring_risk 50 ≠ classify_risk 50 := by
  refine ⟨?_, ?_, ?_⟩ <;> norm_num [classify_risk, monitoring_risk]
  decide

/-- C1 (amended): `classify_risk` (used by the `monitor.py`,
`firebase_monitor.py` and `real_time_input.py` monitoring loops) returns
`NORMAL` iff `health > 80`, `WARNING` iff `50 < health ≤ 80` and `CRITICAL`
iff `health ≤ 50`; the `machine_guard_core.py` monitoring path instead
classifies inline with `CRITICAL` iff `health < 30`, `WARNING` iff
`30 ≤ health < 60` and `NORMAL` iff `health ≥ 60`. -/
theorem classify_risk_boundaries (health : ℚ) :
    (classify_risk health = Risk.NORMAL ↔ 80 < health) ∧
    (classify_risk health = Risk.WARNING ↔ 50 < health ∧ health ≤ 80) ∧
    (classify_risk health = Risk.CRITICAL ↔ health ≤ 50) ∧
    (monitoring_risk health = Risk.CRITICAL ↔ health < 30) ∧
    (monitoring_risk health = Risk.WARNING ↔ 30 ≤ health ∧ health < 60) ∧
    (monitoring_risk health = Risk.NORMAL ↔ 60 ≤ health) := by
  unfold classify_risk monitoring_risk
  split_ifs with h1 h2 h3 h4 <;>
    push_neg at * <;>
    refine ⟨?_, ?_, ?_, ?_, ?_, ?_⟩ <;>
    simp only [reduceCtorEq, eq_self_iff_true, true_iff, iff_true,
      false_iff, iff_false, not_and, not_lt, not_le] <;>
    first
      | linarith
      | (constructor <;> linarith)
      | (intro h5; linarith)
      | assumption
      | (by_contra hc; push_neg at hc; linarith [h4 hc])

/-- C2 counterexample: with a calibration satisfying
`lowAnchor = 0 ≤ 0 ≤ 1 = highAnchor`, the mapping gives
`mapHealth(lowAnchor) = 50`, not `0` as the claim requires of every
calibration with `lowAnchor ≤ 0 ≤ highAnchor`. -/
theorem map_health_low_anchor_zero :
    (0 : ℚ) ≤ 0 ∧ (0 : ℚ) ≤ 1 ∧ map_health 0 1 0 = 50 ∧
    map_health 0 1 0 ≠ 0 := by
  norm_num [map_health]

/-- C2 (amended): for every calibration with `lowAnchor ≤ 0 ≤ highAnchor`,
`mapHealth` is monotone non-decreasing and always lies in `[0, 100]`; when
the anchors are strict (`lowAnchor < 0 < highAnchor`) it moreover is the
3-point piecewise-linear interpolation with `mapHealth(lowAnchor) = 0`,
`mapHealth(0) = 50`, `mapHealth(highAnchor) = 100`, clamping to `0` below
`lowAnchor` and to `100` above `highAnchor`. -/
theorem map_health_spec (l h : ℚ) (hl : l ≤ 0) (hh : 0 ≤ h) :
    (∀ x y : ℚ, x ≤ y → map_health l h x ≤ map_health l h y) ∧
    (∀ x : ℚ, 0 ≤ map_health l h x ∧ map_health l h x ≤ 100) ∧
    (l < 0 → 0 < h →
      map_health l h l = 0 ∧ map_health l h 0 = 50 ∧ map_health l h h = 100 ∧
      (∀ x : ℚ, x < l → map_health l h x = 0) ∧
      (∀ x : ℚ, h < x → map_health l h x = 100) ∧
      (∀ x : ℚ, l ≤ x → x < 0 →
        map_health l h x = (50 - 0) / (0 - l) * (x - l) + 0) ∧
      (∀ x : ℚ, 0 ≤ x → x < h →
        map_health l h x = (100 - 50) / (h - 0) * (x - 0) + 50)) := by
  refine ⟨map_health_mono l h, map_health_range l h, fun hl0 hh0 => ?_⟩
  refine ⟨?_, ?_, ?_, ?_, ?_, ?_, ?_⟩
  · rw [map_health_of_segB le_rfl hl0 (by linarith)]
    ring
  · rw [map_health_of_segC hl le_rfl hh0]
    ring
  · exact map_health_of_top (by linarith) hh le_rfl le_rfl
  · exact fun x hx => map_health_of_lt_l hx (by linarith)
  · exact fun x hx => map_health_of_gt_h hx
  · exact fun x h1 h2 => map_health_of_segB h1 h2 (by linarith)
  · exact fun x h1 h2 => map_health_of_segC (by linarith) h1 h2

/-- Witness for `map_health_spec` at the concrete calibration
`lowAnchor = -1`, `highAnchor = 1`. -/
theorem map_health_spec_witness :
    map_health (-1) 1 (-1) = 0 ∧ map_health (-1) 1 0 = 50 ∧
    map_health (-1) 1 1 = 100 ∧ map_health (-1) 1 (-2) = 0 ∧
    map_health (-1) 1 2 = 100 := by
  obtain ⟨-, -, hmain⟩ := map_health_spec (-1) 1 (by norm_num) (by norm_num)
  obtain ⟨a, b, c, d, e, -, -⟩ := hmain (by norm_num) (by norm_num)
  exact ⟨a, b, c, d (-2) (by norm_num), e 2 (by norm_num)⟩

/-- C9: with degenerate calibration bounds (`highAnchor ≤ lowAnchor`) the
mapping still returns a clamped value in `[0, 100]` (it is a total function,
no error is possible) and remains monotone non-decreasing in the raw score;
with `highAnchor < lowAnchor` it degenerates to a `0`/`100` step at
`highAnchor` (np.interp's `x > xp[2]` check runs first, so everything above
the high anchor — the interval `(highAnchor, lowAnchor)` included — maps to
`100`) rather than inverting the scale. -/
theorem map_health_degenerate (l h : ℚ) (hdeg : h ≤ l) :
    (∀ x y : ℚ, x ≤ y → map_health l h x ≤ map_health l h y) ∧
    (∀ x : ℚ, 0 ≤ map_health l h x ∧ map_health l h x ≤ 100) ∧
    (h < l → ∀ x : ℚ, map_health l h x = if x ≤ h then 0 else 100) := by
  refine ⟨map_health_mono l h, map_health_range l h, fun hlt x => ?_⟩
  by_cases hx : x ≤ h
  · rw [if_pos hx, map_health_of_lt_l (lt_of_le_of_lt hx hlt) hx]
  · rw [if_neg hx, map_health_of_gt_h (not_le.1 hx)]

/-- Witness for `map_health_degenerate` at the degenerate calibration
`lowAnchor = 1`, `highAnchor = 0`: clamped, monotone, `0` at the high
anchor and `100` above it — already at the interior point `1/2` of
`(highAnchor, lowAnchor)`. -/
theorem map_health_degenerate_witness :
    map_health 1 0 0 ≤ map_health 1 0 2 ∧ 0 ≤ map_health 1 0 2 ∧
    map_health 1 0 2 ≤ 100 ∧ map_health 1 0 0 = 0 ∧
    map_health 1 0 (1 / 2) = 100 ∧ map_health 1 0 2 = 100 := by
  obtain ⟨hmono, hrange, hshape⟩ := map_health_degenerate 1 0 (by norm_num)
  refine ⟨hmono 0 2 (by norm_num), (hrange 2).1, (hrange 2).2, ?_, ?_, ?_⟩
  · rw [hshape (by norm_num) 0]
    norm_num
  · rw [hshape (by norm_num) (1 / 2)]
    norm_num
  · rw [hshape (by norm_num) 2]
    norm_num

/-- C3 counterexample: starting from a fresh `MONITORING` device, three
consecutive readings all mapping to health `40 < 50` yield notifications
`[true, false, false]` — `shouldNotify` is true on the FIRST reading (the
`WARNING` edge fires, since health `40` classifies as `WARNING`, not
`CRITICAL`, on this path) and false on the third, the opposite of the
claim. -/
theorem three_below_50_notifies_first_not_third :
    ((40 : ℚ) < 50) ∧
    gateRun freshMonitoring [40, 40, 40] = [true, false, false] := by decide

/-- C3 (amended): a persistent-critical notification fires on the third of
three consecutive readings whose health is below `30` (the
`machine_guard_core.py` `CRITICAL` threshold — not `50`), and not on the
first or second, when the device starts with an empty health history. -/
theorem persistent_critical_on_third (d : Device) (h1 h2 h3 : ℚ)
    (hm : d.modelLoaded = true) (hd : d.hist = [])
    (c1 : h1 < 30) (c2 : h2 < 30) (c3 : h3 < 30) :
    gateRun d [h1, h2, h3] = [false, false, true] := by
  have f1 : h1 < 50 := by linarith
  have f2 : h2 < 50 := by linarith
  have f3 : h3 < 50 := by linarith
  simp [gateRun, handle_monitoring, hm, hd, pushHealth, should_publish,
    monitoring_risk, c1, c2, c3, f1, f2, f3]

/-- Witness for `persistent_critical_on_third` at health `20` from a fresh
monitoring device. -/
theorem persistent_critical_on_third_witness :
    gateRun freshMonitoring [20, 20, 20] = [false, false, true] :=
  persistent_critical_on_third freshMonitoring 20 20 20 rfl rfl
    (by norm_num) (by norm_num) (by norm_num)

/-- C4 counterexample: a reading scored to health `70` on a fresh
`MONITORING` device makes every alert-gate rule decline
(`should_publish_mqtt = false`), yet a status payload is still published for
that reading. -/
theorem suppressed_reading_still_published :
    (handle_monitoring (fun _ => 70) freshMonitoring ⟨0, 0, 0, 0, 0⟩).2.1
        = false ∧
    (handle_monitoring (fun _ => 70) freshMonitoring ⟨0, 0, 0, 0, 0⟩).2.2
        = [⟨70, Risk.NORMAL⟩] ∧
    ([⟨70, Risk.NORMAL⟩] : List MqttPayload) ≠ [] := by decide

/-- C4 (amended): for every `MONITORING` reading processed with the model
loaded, exactly one outbound status payload is published, regardless of the
alert-gate decision — `should_publish_mqtt` is computed but never consulted
by the publish call. -/
theorem payload_published_every_reading (health_of : MappedReading → ℚ)
    (d : Device) (r : MappedReading) (hm : d.modelLoaded = true) :
    (handle_monitoring health_of d r).2.2
        = [⟨health_of r, monitoring_risk (health_of r)⟩] := by
  simp [handle_monitoring, hm]

/-- Witness for `payload_published_every_reading` on a fresh monitoring
device at health `70`. -/
theorem payload_published_every_reading_witness :
    (handle_monitoring (fun _ => 70) freshMonitoring ⟨1, 2, 3, 4, 5⟩).2.2
        = [⟨70, monitoring_risk 70⟩] :=
  payload_published_every_reading (fun _ => 70) freshMonitoring
    ⟨1, 2, 3, 4, 5⟩ rfl

/-- C8: on the `machine_guard_core.py` monitoring path, (1) a `WARNING`
classification notifies iff the previously recorded risk is not `WARNING`;
(2) `last_risk` is overwritten with the current risk after every evaluation,
notified or suppressed; (3) hence a `WARNING → WARNING → WARNING` run from a
non-`WARNING` previous risk notifies only on the first reading. -/
theorem warning_edge_triggered :
    (∀ (d : Device) (health : ℚ), d.modelLoaded = true →
      monitoring_risk health = .WARNING →
      ((handle_monitoring (fun _ => health) d ⟨0, 0, 0, 0, 0⟩).2.1 = true ↔
        d.lastRisk ≠ .WARNING)) ∧
    (∀ (health_of : MappedReading → ℚ) (d : Device) (r : MappedReading),
      d.modelLoaded = true →
      (handle_monitoring health_of d r).1.lastRisk
          = monitoring_risk (health_of r)) ∧
    (∀ (d : Device) (h1 h2 h3 : ℚ), d.modelLoaded = true →
      d.lastRisk ≠ .WARNING →
      monitoring_risk h1 = .WARNING → monitoring_risk h2 = .WARNING →
      monitoring_risk h3 = .WARNING →
      gateRun d [h1, h2, h3] = [true, false, false]) := by
  refine ⟨?_, ?_, ?_⟩
  · intro d health hm hw
    by_cases hlast : d.lastRisk = .WARNING <;>
      simp [handle_monitoring, hm, hw, should_publish, hlast]
  · intro health_of d r hm
    simp [handle_monitoring, hm]
  · intro d h1 h2 h3 hm hlast w1 w2 w3
    simp [gateRun, handle_monitoring, hm, w1, w2, w3, should_publish,
      pushHealth, hlast]

/-- Witness for `warning_edge_triggered` at health `40` (which classifies as
`WARNING` on this path) from a fresh monitoring device. -/
theorem warning_edge_triggered_witness :
    ((handle_monitoring (fun _ => 40) freshMonitoring ⟨0, 0, 0, 0, 0⟩).2.1
        = true ↔ freshMonitoring.lastRisk ≠ .WARNING) ∧
    gateRun freshMonitoring [40, 40, 40] = [true, false, false] := by
  have hw : monitoring_risk 40 = .WARNING := by norm_num [monitoring_risk]
  exact ⟨warning_edge_triggered.1 freshMonitoring 40 rfl hw,
    warning_edge_triggered.2.2 freshMonitoring 40 40 40 rfl (by decide)
      hw hw hw⟩

/-- A calibrating device stuck at 80 buffered samples since second 1. -/
def stuck80 : Device :=
  { state := .CALIBRATING, buffer := List.replicate 80 ⟨0, 0, 0, 0, 0⟩,
    calStart := some 1, lastTs := none, hist := [], lastRisk := .NORMAL,
    modelLoaded := false }

/-- C6 counterexample: a device stuck at 80 calibration samples past
`T_MAX` trains — once the next reading arrives — on the 81-sample buffer
(the 80 buffered samples plus the newly appended triggering reading), not
on the 80-sample buffer: the append at the top of `handle_calibration`
precedes the stopping-condition check. -/
theorem stuck_at_80_trains_on_81 :
    stuck80.buffer.length = 80 ∧
    (302 : ℚ) - 1 > MAX_CALIBRATION_TIME ∧
    (handle_calibration 302 stuck80 ⟨0, 0, 0, 0, 0⟩).2
        = some (List.replicate 81 ⟨0, 0, 0, 0, 0⟩) ∧
    (List.replicate 81 ((⟨0, 0, 0, 0, 0⟩ : MappedReading))).length ≠ 80 := by
  refine ⟨by decide, by norm_num [MAX_CALIBRATION_TIME], ?_, by decide⟩
  unfold handle_calibration stuck80 orElseNow
  rw [if_pos]
  · dsimp only
    rw [← List.replicate_succ']
  · right
    norm_num [MAX_CALIBRATION_TIME]

/-- C6 (amended): in `CALIBRATING`, training is triggered exactly when,
after appending the new reading, the sample count is `≥ 100` or the elapsed
time since calibration start exceeds `300` seconds; training then consumes
exactly the full appended buffer and the device transitions to
`MONITORING`, and otherwise the state is unchanged and only the buffer
grows.  In particular the 100th fast sample trains on the 100-sample
buffer, while a device stuck at 80 samples past `T_MAX` trains on the
81-sample buffer once its next reading arrives. -/
theorem calibration_stopping_rule (health_of : MappedReading → ℚ) (now : ℚ)
    (d : Device) (r : Reading) (hs : d.state = .CALIBRATING) :
    (process_reading health_of now d r
        = ((handle_calibration now d (mapReading r)).1,
            (handle_calibration now d (mapReading r)).2, [])) ∧
    ((handle_calibration now d (mapReading r)).2 ≠ none ↔
      d.buffer.length + 1 ≥ CALIBRATION_SAMPLES ∨
        now - orElseNow d.calStart now > MAX_CALIBRATION_TIME) ∧
    ((handle_calibration now d (mapReading r)).2 ≠ none →
      (handle_calibration now d (mapReading r)).2
          = some (d.buffer ++ [mapReading r]) ∧
      (handle_calibration now d (mapReading r)).1.state = .MONITORING) ∧
    ((handle_calibration now d (mapReading r)).2 = none →
      (handle_calibration now d (mapReading r)).1.state = .CALIBRATING ∧
      (handle_calibration now d (mapReading r)).1.buffer
          = d.buffer ++ [mapReading r]) := by
  have hb : (d.buffer ++ [mapReading r]).length = d.buffer.length + 1 := by
    simp
  refine ⟨by simp [process_reading, hs], ?_, ?_, ?_⟩ <;>
    unfold handle_calibration <;>
    by_cases hcond : (d.buffer ++ [mapReading r]).length ≥ CALIBRATION_SAMPLES
        ∨ now - orElseNow d.calStart now > MAX_CALIBRATION_TIME <;>
    simp only [hb] at hcond <;>
    simp [hcond, hs, hb]

/-- A calibrating device holding 99 buffered samples since second 1. -/
def dev99 : Device :=
  { state := .CALIBRATING, buffer := List.replicate 99 ⟨0, 0, 0, 0, 0⟩,
    calStart := some 1, lastTs := none, hist := [], lastRisk := .NORMAL,
    modelLoaded := false }

/-- A calibrating device holding 50 buffered samples since second 1. -/
def dev50 : Device :=
  { state := .CALIBRATING, buffer := List.replicate 50 ⟨0, 0, 0, 0, 0⟩,
    calStart := some 1, lastTs := none, hist := [], lastRisk := .NORMAL,
    modelLoaded := false }

/-- Witness for `calibration_stopping_rule`: the 100th fast sample
(11 seconds in) trains on the full 100-sample buffer and moves the device to
`MONITORING`, while the 51st fast sample triggers nothing and leaves the
device `CALIBRATING`. -/
theorem calibration_stopping_rule_witness :
    (handle_calibration 11 dev99 (mapReading ⟨0, 0, 0, 0, 0, none⟩)).2
        = some (dev99.buffer ++ [mapReading ⟨0, 0, 0, 0, 0, none⟩]) ∧
    (handle_calibration 11 dev99 (mapReading ⟨0, 0, 0, 0, 0, none⟩)).1.state
        = .MONITORING ∧
    (handle_calibration 11 dev50 (mapReading ⟨0, 0, 0, 0, 0, none⟩)).2
        = none ∧
    (handle_calibration 11 dev50 (mapReading ⟨0, 0, 0, 0, 0, none⟩)).1.state
        = .CALIBRATING := by
  obtain ⟨-, hiff, htrig, -⟩ :=
    calibration_stopping_rule (fun _ => 0) 11 dev99 ⟨0, 0, 0, 0, 0, none⟩ rfl
  obtain ⟨h1, h2⟩ :=
    htrig (hiff.mpr (Or.inl (by norm_num [dev99, CALIBRATION_SAMPLES])))
  obtain ⟨-, hiff2, -, hstay⟩ :=
    calibration_stopping_rule (fun _ => 0) 11 dev50 ⟨0, 0, 0, 0, 0, none⟩ rfl
  have hnone : (handle_calibration 11 dev50
      (mapReading ⟨0, 0, 0, 0, 0, none⟩)).2 = none := by
    by_contra hne
    rcases hiff2.mp hne with hA | hB
    · norm_num [dev50, CALIBRATION_SAMPLES] at hA
    · norm_num [dev50, orElseNow, MAX_CALIBRATION_TIME] at hB
  obtain ⟨h3, -⟩ := hstay hnone
  exact ⟨h1, h2, hnone, h3⟩

/-- `process_reading` never touches `last_processed_ts`: only the ingestion
loop of `MachineGuardSystem.run` writes it. -/
lemma process_reading_lastTs (health_of : MappedReading → ℚ) (now : ℚ)
    (d : Device) (r : Reading) :
    (process_reading health_of now d r).1.lastTs = d.lastTs := by
  unfold process_reading
  split
  · simp
  · dsimp only
    unfold handle_calibration
    dsimp only
    split <;> simp
  · dsimp only
    unfold handle_monitoring
    split <;> simp

/-- C7: processing a second consecutive reading that carries the same
timestamp as the one last processed for the device is a no-op — it is
dropped at the ingestion boundary before reaching the lifecycle controller,
so no state mutation, no training and no publication happens for it. -/
theorem duplicate_timestamp_dropped (health_of : MappedReading → ℚ)
    (now1 now2 : ℚ) (d : Device) (r : Reading) (ts : String)
    (hts : r.timestamp = some ts) :
    ingest health_of now2 (ingest health_of now1 d r).1 r
        = ((ingest health_of now1 d r).1, none, []) := by
  simp only [ingest, hts]
  by_cases hdup : d.lastTs = some ts
  · simp [hdup]
  · simp only [if_neg hdup]
    have hpres :
        (process_reading health_of now1 { d with lastTs := some ts } r).1.lastTs
          = some ts :=
      process_reading_lastTs health_of now1 { d with lastTs := some ts } r
    simp [hpres]

/-- A device never seen before (initial state `NEW`, nothing processed). -/
def freshNew : Device :=
  { state := .NEW, buffer := [], calStart := none, lastTs := none,
    hist := [], lastRisk := .NORMAL, modelLoaded := false }

/-- A concrete inbound reading bearing timestamp string `"t1"`. -/
def sampleReading : Reading := ⟨1, 2, 3, 4, 5, some "t1"⟩

/-- Witness for `duplicate_timestamp_dropped`: delivering `sampleReading`
twice to a fresh device mutates it only once. -/
theorem duplicate_timestamp_dropped_witness :
    ingest (fun _ => 0) 1
        (ingest (fun _ => 0) 0 freshNew sampleReading).1 sampleReading
      = ((ingest (fun _ => 0) 0 freshNew sampleReading).1, none, []) :=
  duplicate_timestamp_dropped (fun _ => 0) 0 1 freshNew sampleReading
    "t1" rfl

/-- The on-disk artifact set of one device: whether each of
`{device}_model.pkl`, `{device}_scaler.pkl` and `{device}_calibration.json`
exists and is loadable. -/
structure Disk where
  modelFile : Bool
  scalerFile : Bool
  calibFile : Bool
deriving DecidableEq, Repr

/-- Where, if anywhere, `DeviceManager.train_model` (lines 139-182) raises.
Its body runs, in order: fit+dump the scaler (writes the scaler file),
fit+dump the model (writes the model file), compute calibration stats and
write `{device}_calibration.json`.  Any exception is caught by its own
handler, which runs `save_state("NEW")` (comment in source: `# Reset to
NEW`) and returns normally. -/
inductive TrainOutcome
  | ok
  | failBeforeScaler
  | failAfterScaler
  | failAfterModel
  | failDuringCalibWrite
deriving DecidableEq, Repr

/-- Disk effect and state write of `DeviceManager.train_model`: the first
component is the artifact files present afterwards, the second the state
its exception handler persisted (`some NEW` on failure, `none` on
success — the success path does not touch the state). -/
def train_model_effect (disk : Disk) (o : TrainOutcome) :
    Disk × Option LifeState :=
  match o with
  | .ok => (⟨true, true, true⟩, none)
  | .failBeforeScaler => (disk, some .NEW)
  | .failAfterScaler => ({ disk with scalerFile := true }, some .NEW)
  | .failAfterModel =>
      ({ disk with scalerFile := true, modelFile := true }, some .NEW)
  | .failDuringCalibWrite =>
      ({ disk with scalerFile := true, modelFile := true, calibFile := false },
        some .NEW)

/-- `DeviceManager.load_artifacts` (lines 184-195): loading succeeds iff the
model, scaler and calibration files are all loadable, leaving the state `s`
it was entered in; any failure runs `save_state("NEW")`. -/
def load_artifacts_state (disk : Disk) (s : LifeState) : LifeState :=
  if disk.modelFile && disk.scalerFile && disk.calibFile then s else .NEW

/-- The tail of `DeviceManager.handle_calibration` once the stopping
condition has fired (lines 128-132), executed in order:

    self.train_model(df)        # catches its own exceptions
    self.save_state("MONITORING")
    self.load_artifacts()

`save_state("MONITORING")` runs unconditionally — `train_model` reports
failure only by itself saving state `NEW`, which the next line overwrites.
Returns the final lifecycle state and disk contents. -/
def finish_calibration (disk : Disk) (o : TrainOutcome) : LifeState × Disk :=
  let res := train_model_effect disk o
  (load_artifacts_state res.1 .MONITORING, res.1)

/-- C5: `train_model`'s own failure handler does save state `NEW`, but
`handle_calibration` then unconditionally saves `MONITORING` and calls
`load_artifacts`; when training fails after the model and scaler dumps
(e.g. while computing calibration stats) and a readable
`{device}_calibration.json` survives from an earlier cycle, the artifact
load succeeds and the device ends the reading in `MONITORING` — not `NEW`,
and without any buffer discard — contradicting the claim.  On a fresh disk
the same failure does end in `NEW`, exposing the clobbered intent. -/
theorem training_failure_can_end_in_monitoring :
    (train_model_effect ⟨true, true, true⟩ .failAfterModel).2
        = some .NEW ∧
    (finish_calibration ⟨true, true, true⟩ .failAfterModel).1
        = .MONITORING ∧
    (finish_calibration ⟨false, false, false⟩ .failBeforeScaler).1
        = .NEW := by decide

/-- `DeviceManager.load_state` (lines 57-74): a readable state file wins;
otherwise, if both the model and scaler files exist, resume directly in
`MONITORING` (skip calibration); otherwise start `NEW`.  `stateFile = none`
models a missing or unreadable (bare `except: pass`) state file. -/
def load_state (stateFile : Option LifeState) (modelFile scalerFile : Bool) :
    LifeState :=
  match stateFile with
  | some s => s
  | none => if modelFile && scalerFile then .MONITORING else .NEW

/-- `DeviceManager.__init__` (lines 41, 54-55): `self.state = load_state()`,
then `if self.state == "MONITORING": self.load_artifacts()` — which demotes
to `NEW` unless the model, scaler AND calibration files all load. -/
def init_device_state (stateFile : Option LifeState) (disk : Disk) :
    LifeState :=
  let s := load_state stateFile disk.modelFile disk.scalerFile
  if s = .MONITORING then load_artifacts_state disk .MONITORING else s

/-- C10 counterexample: with no lifecycle-state file and with model and
scaler artifacts present but no readable calibration JSON, the device does
NOT initialize in `MONITORING`: `load_state` picks `MONITORING` but the
artifact load in `__init__` fails on the missing calibration file and
reverts the device to `NEW`, so calibration is not skipped. -/
theorem artifacts_without_calibration_json_recalibrate :
    init_device_state none ⟨true, true, false⟩ = .NEW ∧
    LifeState.NEW ≠ .MONITORING := by decide

/-- C10 (amended): at startup with the lifecycle-state file missing or
unreadable, existing model and scaler files make `load_state` select
`MONITORING` even though no lifecycle record was ever persisted; the device
then stays in `MONITORING` (skipping calibration, with artifacts loaded)
iff the calibration JSON also loads, and reverts to `NEW` otherwise. -/
theorem startup_artifact_shortcut (c : Bool) :
    load_state none true true = .MONITORING ∧
    init_device_state none ⟨true, true, c⟩
        = (if c then .MONITORING else .NEW) := by
  cases c <;> decide

end MachineGuard
